import Mathlib

/-!
# Interaction controller of `src/main.js`

A shallow embedding of the event handlers that `initScene` registers in
`src/main.js` (drag-to-rotate, ray-cast hit test, responsive resize).

Modelling conventions.

* In the first part JavaScript numbers are elements of a linearly ordered
  field `α` with exact arithmetic; the decimal literals `0.01` and `0.2` denote
  `1/100` and `1/5`. This serves the properties that state the very expression
  the code evaluates.
* Where the result depends on rounding (a sum accumulated over several moves),
  the listeners are embedded a second time, under `F64`, in double precision:
  a finite Number is the rational it denotes and every arithmetic operator
  rounds its exact result to the nearest double, ties to even. `NaN`, the
  infinities and the sign of zero are not modelled.
* The closure variables of `initScene` (`model`, `isInteracting`,
  `lastPointerPosition`, `camera`, `renderer`, `composer`) and the two fields of
  `window` the handlers read form the record `State`; every listener is a
  function from a state to a new state and the list of effects it causes, in
  program order.
* The rendering engine's ray caster is an argument `intersectObject`, the value
  of `Math.PI` is an argument `PI`.
* `gsap.to` is asynchronous: a listener only issues the request
  (`Effect.gsapTo`); the writes the animation utility later makes to
  `model.rotation` are the separate event `Event.gsapRender`.
-/

namespace Main

/-! ## Data model -/

/-- A pair of numbers: `THREE.Vector2`, and the object literal
`{ x: ..., y: ... }` held by `lastPointerPosition`. -/
structure Vector2 (α : Type) where
  x : α
  y : α
deriving DecidableEq, Repr

/-- The Euler angles `model.rotation` (`THREE.Euler`). -/
structure Euler (α : Type) where
  x : α
  y : α
  z : α
deriving DecidableEq, Repr

/-- The part of a `THREE.Object3D` the handlers read: its rotation. -/
structure Object3D (α : Type) where
  rotation : Euler α
deriving DecidableEq, Repr

/-- The perspective camera: its `aspect` field, and the aspect ratio that the
last `updateProjectionMatrix()` baked into the projection matrix. -/
structure Camera (α : Type) where
  aspect : α
  projectionAspect : α
deriving DecidableEq, Repr

/-- The closure state of `initScene` together with the viewport size. -/
structure State (α : Type) where
  /-- The variable `model`: `none` is `undefined` (main.js line 60). -/
  model : Option (Object3D α)
  /-- The variable `isInteracting` (line 88). -/
  isInteracting : Bool
  /-- The variable `lastPointerPosition` (line 89). -/
  lastPointerPosition : Vector2 α
  camera : Camera α
  /-- The size last given to `renderer.setSize`. -/
  rendererSize : α × α
  /-- The size last given to `composer.setSize`. -/
  composerSize : α × α
  /-- The value of `window.innerWidth`. -/
  innerWidth : α
  /-- The value of `window.innerHeight`. -/
  innerHeight : α
deriving DecidableEq, Repr

/-- The second argument of `gsap.to` (lines 102 to 107). -/
structure TweenVars (α : Type) where
  x : α
  y : α
  duration : α
  ease : String
deriving DecidableEq, Repr

/-- What a listener does besides updating the state. -/
inductive Effect (α : Type) where
  /-- The call `gsap.to(model.rotation, vars)`: a rotation request. -/
  | gsapTo (vars : TweenVars α)
  /-- The call `e.preventDefault()`. -/
  | preventDefault
  /-- Reading `clientX` of an undefined `e.touches[0]` throws. -/
  | typeError
deriving DecidableEq, Repr

/-- The type of `raycaster.intersectObject` after `raycaster.setFromCamera`:
from the camera, the pointer in normalized device coordinates, the object and
the `recursive` flag to the list of intersections (their distances). -/
abbrev Raycast (α : Type) := Camera α → Vector2 α → Object3D α → Bool → List α

/-! ## Operations -/

/-- Modelled from the spec: the animation utility's clamp helper
`gsap.utils.clamp(min, max, value)`, which belongs to the external package
`gsap` and is not under src/. The value is limited to the range from `min` to
`max`: below `min` it is `min`, above `max` it is `max`, else itself. -/
def gsap.utils.clamp {α : Type} [LinearOrderedField α] (min max value : α) : α :=
  if value < min then min else if value > max then max else value

/-- The function `handleRotation` (lines 92 to 109). -/
def handleRotation {α : Type} [LinearOrderedField α] (PI : α)
    (clientX clientY : α) (s : State α) : State α × List (Effect α) :=
  match s.model with
  | some model =>
    if s.isInteracting then
      let deltaX := clientX - s.lastPointerPosition.x
      let deltaY := clientY - s.lastPointerPosition.y
      ({ s with lastPointerPosition := { x := clientX, y := clientY } },
        [Effect.gsapTo
          { x := gsap.utils.clamp (-PI / 4) (PI / 4) (model.rotation.x - deltaY * 0.01)
            y := model.rotation.y + deltaX * 0.01
            duration := 0.2
            ease := "power2.out" }])
    else (s, [])
  | none => (s, [])

/-- The pointer in normalized device coordinates (lines 117 to 119). -/
def pointerNDC {α : Type} [LinearOrderedField α]
    (innerWidth innerHeight clientX clientY : α) : Vector2 α :=
  { x := (clientX / innerWidth) * 2 - 1
    y := -(clientY / innerHeight) * 2 + 1 }

/-- The function `isPointerOnModel` (lines 112 to 125). -/
def isPointerOnModel {α : Type} [LinearOrderedField α] (intersectObject : Raycast α)
    (clientX clientY : α) (s : State α) : Bool :=
  match s.model with
  | none => false
  | some model =>
    let pointer := pointerNDC s.innerWidth s.innerHeight clientX clientY
    let intersects := intersectObject s.camera pointer model true
    decide (intersects.length > 0)

/-- The `mousedown` listener (lines 128 to 133). -/
def mousedown {α : Type} [LinearOrderedField α] (intersectObject : Raycast α)
    (clientX clientY : α) (s : State α) : State α × List (Effect α) :=
  if isPointerOnModel intersectObject clientX clientY s then
    ({ s with isInteracting := true
              lastPointerPosition := { x := clientX, y := clientY } }, [])
  else (s, [])

/-- The `mousemove` listener (lines 135 to 137). -/
def mousemove {α : Type} [LinearOrderedField α] (PI : α)
    (clientX clientY : α) (s : State α) : State α × List (Effect α) :=
  handleRotation PI clientX clientY s

/-- The `mouseup` listener (lines 139 to 141). -/
def mouseup {α : Type} (s : State α) : State α × List (Effect α) :=
  ({ s with isInteracting := false }, [])

/-- The `touchstart` listener (lines 144 to 150); `touches` is `e.touches`. -/
def touchstart {α : Type} [LinearOrderedField α] (intersectObject : Raycast α)
    (touches : List (Vector2 α)) (s : State α) : State α × List (Effect α) :=
  match touches.head? with
  | none => (s, [Effect.typeError])
  | some touch =>
    if isPointerOnModel intersectObject touch.x touch.y s then
      ({ s with isInteracting := true
                lastPointerPosition := { x := touch.x, y := touch.y } }, [])
    else (s, [])

/-- The `touchmove` listener (lines 152 to 158); `touches` is `e.touches`. -/
def touchmove {α : Type} [LinearOrderedField α] (PI : α)
    (touches : List (Vector2 α)) (s : State α) : State α × List (Effect α) :=
  if s.isInteracting then
    match touches.head? with
    | none => (s, [Effect.preventDefault, Effect.typeError])
    | some touch =>
      let r := handleRotation PI touch.x touch.y s
      (r.1, Effect.preventDefault :: r.2)
  else (s, [])

/-- The `touchend` listener (lines 160 to 162). -/
def touchend {α : Type} (s : State α) : State α × List (Effect α) :=
  ({ s with isInteracting := false }, [])

/-- The `resize` listener (lines 165 to 170). -/
def resize {α : Type} [LinearOrderedField α] (s : State α) : State α × List (Effect α) :=
  ({ s with camera := { aspect := s.innerWidth / s.innerHeight
                        projectionAspect := s.innerWidth / s.innerHeight }
            rendererSize := (s.innerWidth, s.innerHeight)
            composerSize := (s.innerWidth, s.innerHeight) }, [])

/-- The success callback of `loader.load` (lines 65 to 69). -/
def onModelLoaded {α : Type} (scene : Object3D α) (s : State α) : State α :=
  { s with model := some scene }

/-- The error callback of `loader.load` (lines 73 to 75): it only logs. -/
def onModelError {α : Type} (s : State α) : State α := s

/-- The state `initScene` leaves behind for a viewport of the given size
(lines 30, 40, 60, 79, 88 and 89). -/
def initScene {α : Type} [LinearOrderedField α] (innerWidth innerHeight : α) : State α :=
  { model := none
    isInteracting := false
    lastPointerPosition := { x := 0, y := 0 }
    camera := { aspect := innerWidth / innerHeight
                projectionAspect := innerWidth / innerHeight }
    rendererSize := (innerWidth, innerHeight)
    composerSize := (innerWidth, innerHeight)
    innerWidth := innerWidth
    innerHeight := innerHeight }

/-- Modelled from the spec: the animation utility `gsap`, an external package
that is not under src/, carrying out a transition requested with `gsap.to`: it
writes the fields `x` and `y` of `model.rotation`. With the requested target
values this is the completed transition. -/
def gsapRender {α : Type} (x y : α) (s : State α) : State α :=
  match s.model with
  | some model =>
    { s with model := some { model with rotation := { model.rotation with x := x, y := y } } }
  | none => s

/-! ## The event loop -/

/-- The events the page reacts to. -/
inductive Event (α : Type) where
  | mousedown (clientX clientY : α)
  | mousemove (clientX clientY : α)
  | mouseup
  | touchstart (touches : List (Vector2 α))
  | touchmove (touches : List (Vector2 α))
  | touchend
  /-- The window takes the given inner size, then the `resize` listener runs. -/
  | resize (innerWidth innerHeight : α)
  /-- The model file has been loaded. -/
  | modelLoaded (scene : Object3D α)
  /-- Loading the model file has failed. -/
  | modelError
  /-- The animation utility writes `model.rotation.x` and `model.rotation.y`. -/
  | gsapRender (x y : α)
deriving DecidableEq, Repr

/-- One turn of the event loop: the callback registered for the event. -/
def step {α : Type} [LinearOrderedField α] (PI : α) (intersectObject : Raycast α)
    (e : Event α) (s : State α) : State α × List (Effect α) :=
  match e with
  | Event.mousedown clientX clientY => mousedown intersectObject clientX clientY s
  | Event.mousemove clientX clientY => mousemove PI clientX clientY s
  | Event.mouseup => mouseup s
  | Event.touchstart touches => touchstart intersectObject touches s
  | Event.touchmove touches => touchmove PI touches s
  | Event.touchend => touchend s
  | Event.resize w h => resize { s with innerWidth := w, innerHeight := h }
  | Event.modelLoaded scene => (onModelLoaded scene s, [])
  | Event.modelError => (onModelError s, [])
  | Event.gsapRender x y => (gsapRender x y s, [])

/-- The event loop on a finite sequence of events: the final state and all
effects, in order. -/
def run {α : Type} [LinearOrderedField α] (PI : α) (intersectObject : Raycast α) :
    List (Event α) → State α → State α × List (Effect α)
  | [], s => (s, [])
  | e :: es, s =>
    let r := step PI intersectObject e s
    let r2 := run PI intersectObject es r.1
    (r2.1, r.2 ++ r2.2)

/-- The rotation requests among a list of effects. -/
def rotationRequests {α : Type} : List (Effect α) → List (TweenVars α)
  | [] => []
  | Effect.gsapTo vars :: es => vars :: rotationRequests es
  | _ :: es => rotationRequests es

/-- Whether the event is a pointer-down (`mousedown`, or `touchstart` with a
first touch point) whose hit test succeeds in the state `s`. -/
def isHitDown {α : Type} [LinearOrderedField α] (intersectObject : Raycast α)
    (s : State α) : Event α → Bool
  | Event.mousedown clientX clientY => isPointerOnModel intersectObject clientX clientY s
  | Event.touchstart (touch :: _) => isPointerOnModel intersectObject touch.x touch.y s
  | _ => false

/-- Whether the event is a move, or a pointer-down whose hit test misses in the
state `s`. -/
def isMoveOrMissedDown {α : Type} [LinearOrderedField α] (intersectObject : Raycast α)
    (s : State α) : Event α → Bool
  | Event.mousemove _ _ => true
  | Event.touchmove _ => true
  | Event.mousedown clientX clientY => !isPointerOnModel intersectObject clientX clientY s
  | Event.touchstart (touch :: _) => !isPointerOnModel intersectObject touch.x touch.y s
  | _ => false

/-- Whether the event is the successful end of the model load. -/
def isModelLoaded {α : Type} : Event α → Bool
  | Event.modelLoaded _ => true
  | _ => false

/-- A sample ray caster for the worked scenarios: the object covers the middle
of the view, the points whose normalized device coordinates are both between
`-1/2` and `1/2`, at distance 4 from the camera. -/
def centreBox {α : Type} [LinearOrderedField α] : Raycast α :=
  fun _ pointer _ _ =>
    if -(1 / 2) ≤ pointer.x ∧ pointer.x ≤ 1 / 2 ∧ -(1 / 2) ≤ pointer.y ∧ pointer.y ≤ 1 / 2
    then [4] else []

/-- The scene of the worked scenarios: a viewport of 800 by 600, the model
loaded and at rest, no drag engaged. -/
def loaded {α : Type} [LinearOrderedField α] : State α :=
  { initScene 800 600 with model := some { rotation := { x := 0, y := 0, z := 0 } } }

/-- A state in the middle of a drag: model at rest, pointer last seen at
`(400, 300)` in a viewport of 800 by 600. -/
def dragging {α : Type} [LinearOrderedField α] : State α :=
  { initScene 800 600 with
    model := some { rotation := { x := 0, y := 0, z := 0 } }
    isInteracting := true
    lastPointerPosition := { x := 400, y := 300 } }

/-- A session in which loading the model fails and the user then clicks,
drags, touches and resizes the window. -/
def failedLoadSession {α : Type} [LinearOrderedField α] : List (Event α) :=
  [Event.modelError, Event.mousedown 400 300, Event.mousemove 450 280,
    Event.touchstart [{ x := 400, y := 300 }], Event.touchmove [{ x := 450, y := 280 }],
    Event.touchend, Event.resize 1024 768, Event.mouseup]

/-! ## The listeners in double precision -/

/-- Rounding to the nearest integer, a tie going to the even neighbour. -/
def F64.roundHalfEven (t : ℚ) : ℤ :=
  let f := ⌊t⌋
  if t - f < 1 / 2 then f
  else if 1 / 2 < t - f then f + 1
  else if f % 2 = 0 then f else f + 1

/-- The exponent of the unit in the last place of the double nearest to `q`:
53 significant bits, and no exponent below that of the subnormal numbers. -/
def F64.ulpExponent (q : ℚ) : ℤ := max (Int.log 2 |q|) (-1022) - 52

/-- The Number that JavaScript takes for the exact value `q`: the nearest
double, ties to even (IEEE 754 binary64). Overflow to an infinity is not
modelled. -/
def F64.round64 (q : ℚ) : ℚ :=
  F64.roundHalfEven (q / 2 ^ F64.ulpExponent q) * 2 ^ F64.ulpExponent q

/-- The operator `+` on Numbers. -/
def F64.add (a b : ℚ) : ℚ := F64.round64 (a + b)

/-- The binary operator `-` on Numbers. -/
def F64.sub (a b : ℚ) : ℚ := F64.round64 (a - b)

/-- The operator `*` on Numbers. -/
def F64.mul (a b : ℚ) : ℚ := F64.round64 (a * b)

/-- The operator `/` on Numbers, for a divisor other than zero. -/
def F64.div (a b : ℚ) : ℚ := F64.round64 (a / b)

/-- The constant `Math.PI`: the double nearest to π, `0x400921FB54442D18`. -/
def F64.PI : ℚ := 884279719003555 / 281474976710656

/-- The function `handleRotation` (lines 92 to 109) in double precision. -/
def F64.handleRotation (clientX clientY : ℚ) (s : State ℚ) : State ℚ × List (Effect ℚ) :=
  match s.model with
  | some model =>
    if s.isInteracting then
      let deltaX := F64.sub clientX s.lastPointerPosition.x
      let deltaY := F64.sub clientY s.lastPointerPosition.y
      ({ s with lastPointerPosition := { x := clientX, y := clientY } },
        [Effect.gsapTo
          { x := gsap.utils.clamp (F64.div (-F64.PI) 4) (F64.div F64.PI 4)
              (F64.sub model.rotation.x (F64.mul deltaY (F64.round64 0.01)))
            y := F64.add model.rotation.y (F64.mul deltaX (F64.round64 0.01))
            duration := F64.round64 0.2
            ease := "power2.out" }])
    else (s, [])
  | none => (s, [])

/-- The pointer in normalized device coordinates (lines 117 to 119) in double
precision. -/
def F64.pointerNDC (innerWidth innerHeight clientX clientY : ℚ) : Vector2 ℚ :=
  { x := F64.sub (F64.mul (F64.div clientX innerWidth) 2) 1
    y := F64.add (F64.mul (-(F64.div clientY innerHeight)) 2) 1 }

/-- The function `isPointerOnModel` (lines 112 to 125) in double precision. -/
def F64.isPointerOnModel (intersectObject : Raycast ℚ) (clientX clientY : ℚ)
    (s : State ℚ) : Bool :=
  match s.model with
  | none => false
  | some model =>
    let pointer := F64.pointerNDC s.innerWidth s.innerHeight clientX clientY
    let intersects := intersectObject s.camera pointer model true
    decide (intersects.length > 0)

/-- The `mousedown` listener (lines 128 to 133) in double precision. -/
def F64.mousedown (intersectObject : Raycast ℚ) (clientX clientY : ℚ) (s : State ℚ) :
    State ℚ × List (Effect ℚ) :=
  if F64.isPointerOnModel intersectObject clientX clientY s then
    ({ s with isInteracting := true
              lastPointerPosition := { x := clientX, y := clientY } }, [])
  else (s, [])

/-- The `mousemove` listener (lines 135 to 137) in double precision. -/
def F64.mousemove (clientX clientY : ℚ) (s : State ℚ) : State ℚ × List (Effect ℚ) :=
  F64.handleRotation clientX clientY s

/-- A drag in which, before each next move, the model's pitch and yaw equal the
targets requested by the previous one: for each point in turn the `mousemove`
listener runs and the model is then brought to the requested targets. The
result is the final state and the requests issued, in order. -/
def F64.dragSettled : List (Vector2 ℚ) → State ℚ → State ℚ × List (TweenVars ℚ)
  | [], s => (s, [])
  | p :: ps, s =>
    let r := F64.mousemove p.x p.y s
    let requests := rotationRequests r.2
    let settled := requests.foldl (fun t vars => gsapRender vars.x vars.y t) r.1
    let r2 := F64.dragSettled ps settled
    (r2.1, requests ++ r2.2)

/-- The yaw accumulated move by move in double precision: starting from `yaw`
with the pointer last seen at abscissa `lastX`, each point adds the rounded
increment `(x - lastX) * 0.01` for its abscissa `x` and becomes the last
one seen. -/
def F64.accumulatedYaw : ℚ → ℚ → List (Vector2 ℚ) → ℚ
  | yaw, _, [] => yaw
  | yaw, lastX, p :: ps =>
    F64.accumulatedYaw (F64.add yaw (F64.mul (F64.sub p.x lastX) (F64.round64 0.01))) p.x ps

/-! ## Auxiliary facts -/

theorem clamp_eq_max_min {α : Type} [LinearOrderedField α] (lo hi v : α) (h : lo ≤ hi) :
    gsap.utils.clamp lo hi v = max lo (min hi v) := by
  unfold gsap.utils.clamp
  by_cases h1 : v < lo
  · rw [if_pos h1, max_eq_left]
    exact le_trans (min_le_right _ _) h1.le
  · rw [if_neg h1]
    by_cases h2 : v > hi
    · rw [if_pos h2, min_eq_left h2.le, max_eq_right h]
    · rw [if_neg h2, min_eq_right (not_lt.mp h2), max_eq_right (not_lt.mp h1)]

theorem handleRotation_engaged {α : Type} [LinearOrderedField α] (PI x y : α)
    (s : State α) (m : Object3D α) (hm : s.model = some m) (he : s.isInteracting = true) :
    handleRotation PI x y s =
      ({ s with lastPointerPosition := { x := x, y := y } },
        [Effect.gsapTo
          { x := gsap.utils.clamp (-PI / 4) (PI / 4)
              (m.rotation.x - (y - s.lastPointerPosition.y) * 0.01)
            y := m.rotation.y + (x - s.lastPointerPosition.x) * 0.01
            duration := 0.2
            ease := "power2.out" }]) := by
  simp [handleRotation, hm, he]

theorem handleRotation_idle {α : Type} [LinearOrderedField α] (PI x y : α)
    (s : State α) (h : s.isInteracting = false) :
    handleRotation PI x y s = (s, []) := by
  unfold handleRotation
  cases s.model <;> simp [h]

theorem handleRotation_unloaded {α : Type} [LinearOrderedField α] (PI x y : α)
    (s : State α) (h : s.model = none) :
    handleRotation PI x y s = (s, []) := by
  simp [handleRotation, h]

/-! ## Pitch and yaw targets -/

/-- C1: with the model loaded and a drag engaged, `handleRotation` requests as
target pitch the current pitch minus `deltaY * 0.01`, clamped to the range from
`-π/4` to `π/4`, whatever the current pitch is; the target lies in that range,
and a move from `y = 300` to `y = 280` at pitch `0` requests `0.2`. -/
theorem handleRotation_pitch_clamped (s : State ℝ) (m : Object3D ℝ) (x y : ℝ)
    (hm : s.model = some m) (he : s.isInteracting = true) :
    (handleRotation Real.pi x y s).2 =
      [Effect.gsapTo
        { x := max (-Real.pi / 4) (min (Real.pi / 4)
            (m.rotation.x - (y - s.lastPointerPosition.y) * 0.01))
          y := m.rotation.y + (x - s.lastPointerPosition.x) * 0.01
          duration := 0.2
          ease := "power2.out" }] ∧
    -Real.pi / 4 ≤ max (-Real.pi / 4) (min (Real.pi / 4)
        (m.rotation.x - (y - s.lastPointerPosition.y) * 0.01)) ∧
    max (-Real.pi / 4) (min (Real.pi / 4)
        (m.rotation.x - (y - s.lastPointerPosition.y) * 0.01)) ≤ Real.pi / 4 ∧
    (m.rotation.x = 0 → s.lastPointerPosition.y = 300 → y = 280 →
      max (-Real.pi / 4) (min (Real.pi / 4)
        (m.rotation.x - (y - s.lastPointerPosition.y) * 0.01)) = 0.2) := by
  have hpi : (0 : ℝ) < Real.pi := Real.pi_pos
  have hle : -Real.pi / 4 ≤ Real.pi / 4 := by linarith
  refine ⟨?_, le_max_left _ _, max_le hle (min_le_left _ _), ?_⟩
  · rw [handleRotation_engaged Real.pi x y s m hm he, clamp_eq_max_min _ _ _ hle]
  · intro hp hl hy
    have h3 : (3 : ℝ) < Real.pi := Real.pi_gt_three
    rw [hp, hl, hy]
    have e : (0 : ℝ) - (280 - 300) * 0.01 = 0.2 := by norm_num
    rw [e, min_eq_right (by linarith), max_eq_right (by linarith)]

theorem handleRotation_pitch_clamped_witness :
    (dragging : State ℝ).model = some { rotation := { x := 0, y := 0, z := 0 } } ∧
    (dragging : State ℝ).isInteracting = true ∧
    (handleRotation Real.pi 450 280 (dragging : State ℝ)).2 =
      [Effect.gsapTo
        ({ x := 0.2, y := 0.5, duration := 0.2, ease := "power2.out" } : TweenVars ℝ)] := by
  have h := handleRotation_pitch_clamped dragging { rotation := { x := 0, y := 0, z := 0 } }
    450 280 rfl rfl
  refine ⟨rfl, rfl, ?_⟩
  rw [h.1, h.2.2.2 rfl rfl rfl]
  norm_num [dragging]

/-- C2, as stated, fails: at pitch `0`, engaged, a move straight up by 158
pixels (from `(400, 300)` to `(400, 142)`) requests target pitch `π/4`, which
is not `-π/4`. -/
theorem upward_drag_not_negative_quarter_pi :
    (dragging : State ℝ).model = some { rotation := { x := 0, y := 0, z := 0 } } ∧
    (dragging : State ℝ).isInteracting = true ∧
    (-Real.pi / 4 ≤ (0 : ℝ) ∧ (0 : ℝ) ≤ Real.pi / 4) ∧
    (400 : ℝ) = (dragging : State ℝ).lastPointerPosition.x ∧
    (dragging : State ℝ).lastPointerPosition.y - 142 ≥ 158 ∧
    (handleRotation Real.pi 400 142 (dragging : State ℝ)).2 =
      [Effect.gsapTo { x := Real.pi / 4, y := 0, duration := 0.2, ease := "power2.out" }] ∧
    Real.pi / 4 ≠ -Real.pi / 4 := by
  have hpi : (3 : ℝ) < Real.pi := Real.pi_gt_three
  have hpi2 : Real.pi < 3.15 := Real.pi_lt_d2
  refine ⟨rfl, rfl, ⟨by linarith, by linarith⟩, rfl, ?_, ?_, ?_⟩
  · norm_num [dragging]
  · rw [handleRotation_engaged Real.pi 400 142 dragging _ rfl rfl,
      clamp_eq_max_min _ _ _ (by linarith)]
    have e : ((0 : ℝ) - (142 - 300) * 0.01) = 1.58 := by norm_num
    have e2 : ((0 : ℝ) + (400 - 400) * 0.01) = 0 := by norm_num
    show [Effect.gsapTo
      { x := max (-Real.pi / 4) (min (Real.pi / 4) ((0 : ℝ) - (142 - 300) * 0.01))
        y := (0 : ℝ) + (400 - 400) * 0.01
        duration := 0.2
        ease := "power2.out" }] = _
    rw [e, e2, min_eq_left (by norm_num at hpi2 ⊢; linarith), max_eq_right (by linarith)]
  · intro h
    linarith

/-- C2, amended: with the model loaded, a drag engaged and the current pitch
between `-π/4` and `π/4`, a move straight up by at least 158 pixels requests
target pitch exactly `π/4` (and leaves the yaw target at the current yaw); once
that transition has completed, every further such move again requests exactly
`π/4`. -/
theorem upward_drag_saturates (s : State ℝ) (m : Object3D ℝ) (x y : ℝ)
    (hm : s.model = some m) (he : s.isInteracting = true)
    (hlo : -Real.pi / 4 ≤ m.rotation.x) (_hhi : m.rotation.x ≤ Real.pi / 4)
    (hx : x = s.lastPointerPosition.x) (hy : s.lastPointerPosition.y - y ≥ 158) :
    (handleRotation Real.pi x y s).2 =
      [Effect.gsapTo
        { x := Real.pi / 4, y := m.rotation.y, duration := 0.2, ease := "power2.out" }] ∧
    ∀ y2 : ℝ, y - y2 ≥ 158 →
      (handleRotation Real.pi x y2
        (gsapRender (Real.pi / 4) m.rotation.y (handleRotation Real.pi x y s).1)).2 =
      [Effect.gsapTo
        { x := Real.pi / 4, y := m.rotation.y, duration := 0.2, ease := "power2.out" }] := by
  have hpi : (3 : ℝ) < Real.pi := Real.pi_gt_three
  have hpi2 : Real.pi < 3.15 := Real.pi_lt_d2
  have hle : -Real.pi / 4 ≤ Real.pi / 4 := by linarith
  have key : ∀ p d : ℝ, -Real.pi / 4 ≤ p → d ≥ 158 →
      gsap.utils.clamp (-Real.pi / 4) (Real.pi / 4) (p - (-d) * 0.01) = Real.pi / 4 := by
    intro p d hp hd
    rw [clamp_eq_max_min _ _ _ hle, min_eq_left, max_eq_right hle]
    norm_num at hpi2 ⊢
    linarith
  constructor
  · rw [handleRotation_engaged Real.pi x y s m hm he]
    have e1 : y - s.lastPointerPosition.y = -(s.lastPointerPosition.y - y) := by ring
    rw [e1, key _ _ hlo hy, hx]
    simp
  · intro y2 h2
    rw [handleRotation_engaged Real.pi x y s m hm he]
    rw [handleRotation_engaged Real.pi x y2 _
      { m with rotation := { m.rotation with x := Real.pi / 4, y := m.rotation.y } }
      (by simp [gsapRender, hm]) (by simp [gsapRender, hm, he])]
    have e1 : y2 - y = -(y - y2) := by ring
    simp only [gsapRender, hm]
    rw [e1, key _ _ hle h2]
    simp

theorem upward_drag_saturates_witness :
    (dragging : State ℝ).model = some { rotation := { x := 0, y := 0, z := 0 } } ∧
    (dragging : State ℝ).isInteracting = true ∧
    -Real.pi / 4 ≤ (0 : ℝ) ∧ (0 : ℝ) ≤ Real.pi / 4 ∧
    (400 : ℝ) = (dragging : State ℝ).lastPointerPosition.x ∧
    (dragging : State ℝ).lastPointerPosition.y - 100 ≥ 158 ∧
    (handleRotation Real.pi 400 100 (dragging : State ℝ)).2 =
      [Effect.gsapTo { x := Real.pi / 4, y := 0, duration := 0.2, ease := "power2.out" }] :=
  have hpi : (0 : ℝ) < Real.pi := Real.pi_pos
  have h1 : -Real.pi / 4 ≤ (0 : ℝ) := by linarith
  have h2 : (0 : ℝ) ≤ Real.pi / 4 := by linarith
  have h3 : (dragging : State ℝ).lastPointerPosition.y - 100 ≥ 158 := by
    norm_num [dragging]
  ⟨rfl, rfl, h1, h2, rfl, h3,
    (upward_drag_saturates dragging { rotation := { x := 0, y := 0, z := 0 } } 400 100
      rfl rfl h1 h2 rfl h3).1⟩

/-- C3: with the model loaded and a drag engaged, `handleRotation` requests as
target yaw exactly the current yaw plus `deltaX * 0.01`, without clamping or
wrapping: above the current yaw for a move to the right, below it for a move to
the left, equal to it when `x` is unchanged; `deltaX = 100` requests the
current yaw plus `1`, and a move from `x = 400` to `x = 450` requests the
current yaw plus `0.5`. -/
theorem handleRotation_yaw_unclamped {α : Type} [LinearOrderedField α] (PI : α)
    (s : State α) (m : Object3D α) (x y : α)
    (hm : s.model = some m) (he : s.isInteracting = true) :
    (handleRotation PI x y s).2 =
      [Effect.gsapTo
        { x := gsap.utils.clamp (-PI / 4) (PI / 4)
            (m.rotation.x - (y - s.lastPointerPosition.y) * 0.01)
          y := m.rotation.y + (x - s.lastPointerPosition.x) * 0.01
          duration := 0.2
          ease := "power2.out" }] ∧
    (s.lastPointerPosition.x < x →
      m.rotation.y < m.rotation.y + (x - s.lastPointerPosition.x) * 0.01) ∧
    (x < s.lastPointerPosition.x →
      m.rotation.y + (x - s.lastPointerPosition.x) * 0.01 < m.rotation.y) ∧
    (x = s.lastPointerPosition.x →
      m.rotation.y + (x - s.lastPointerPosition.x) * 0.01 = m.rotation.y) ∧
    (x - s.lastPointerPosition.x = 100 →
      m.rotation.y + (x - s.lastPointerPosition.x) * 0.01 = m.rotation.y + 1) ∧
    (s.lastPointerPosition.x = 400 → x = 450 →
      m.rotation.y + (x - s.lastPointerPosition.x) * 0.01 = m.rotation.y + 0.5) := by
  have hk : (0 : α) < 0.01 := by norm_num
  refine ⟨?_, ?_, ?_, ?_, ?_, ?_⟩
  · rw [handleRotation_engaged PI x y s m hm he]
  · intro h
    have : 0 < (x - s.lastPointerPosition.x) * 0.01 := mul_pos (sub_pos.mpr h) hk
    linarith
  · intro h
    have : (x - s.lastPointerPosition.x) * 0.01 < 0 :=
      mul_neg_of_neg_of_pos (sub_neg.mpr h) hk
    linarith
  · intro h
    rw [h]
    simp
  · intro h
    rw [h]
    norm_num
  · intro h1 h2
    rw [h1, h2]
    norm_num

theorem handleRotation_yaw_unclamped_witness :
    (dragging : State ℚ).model = some { rotation := { x := 0, y := 0, z := 0 } } ∧
    (dragging : State ℚ).isInteracting = true ∧
    (0 : ℚ) + (450 - (dragging : State ℚ).lastPointerPosition.x) * 0.01 = 0 + 0.5 :=
  ⟨rfl, rfl,
    (handleRotation_yaw_unclamped (355 / 113 : ℚ) (dragging : State ℚ)
      { rotation := { x := 0, y := 0, z := 0 } } 450 280 rfl rfl).2.2.2.2.2 rfl rfl⟩

/-! ## Engaging and releasing -/

theorem rotationRequests_append {α : Type} (a b : List (Effect α)) :
    rotationRequests (a ++ b) = rotationRequests a ++ rotationRequests b := by
  induction a with
  | nil => rfl
  | cons e es ih => cases e <;> simp [rotationRequests, ih]

theorem isPointerOnModel_unloaded {α : Type} [LinearOrderedField α] (io : Raycast α)
    (x y : α) (s : State α) (h : s.model = none) : isPointerOnModel io x y s = false := by
  simp [isPointerOnModel, h]

theorem isPointerOnModel_loaded {α : Type} [LinearOrderedField α] (io : Raycast α)
    (x y : α) (s : State α) (m : Object3D α) (h : s.model = some m) :
    isPointerOnModel io x y s =
      decide ((io s.camera (pointerNDC s.innerWidth s.innerHeight x y) m true).length > 0) := by
  simp [isPointerOnModel, h]

/-- C4: the `mousedown` listener at `(x, y)`. If the model is loaded and the
ray caster reports an intersection, the new state is the old one with
`isInteracting = true` and `lastPointerPosition = (x, y)`. If the model is not
loaded or the ray caster reports none, the state is unchanged and no effect is
caused, and from a state that was not engaged the next move changes nothing
and requests no rotation. -/
theorem mousedown_post {α : Type} [LinearOrderedField α] (PI : α) (io : Raycast α)
    (s : State α) (x y : α) :
    (∀ m : Object3D α, s.model = some m →
      (io s.camera (pointerNDC s.innerWidth s.innerHeight x y) m true).length > 0 →
      mousedown io x y s =
        ({ s with isInteracting := true, lastPointerPosition := { x := x, y := y } }, [])) ∧
    ((s.model = none ∨ ∃ m : Object3D α, s.model = some m ∧
        (io s.camera (pointerNDC s.innerWidth s.innerHeight x y) m true).length = 0) →
      mousedown io x y s = (s, []) ∧
      (s.isInteracting = false → ∀ x2 y2 : α,
        mousemove PI x2 y2 (mousedown io x y s).1 = (s, []))) := by
  constructor
  · intro m hm hit
    simp [mousedown, isPointerOnModel_loaded io x y s m hm, hit]
  · intro h
    have hmiss : isPointerOnModel io x y s = false := by
      rcases h with h | ⟨m, hm, h0⟩
      · exact isPointerOnModel_unloaded io x y s h
      · simp [isPointerOnModel_loaded io x y s m hm, h0]
    have hd : mousedown io x y s = (s, []) := by simp [mousedown, hmiss]
    refine ⟨hd, ?_⟩
    intro he x2 y2
    rw [hd]
    exact handleRotation_idle PI x2 y2 s he

theorem mousedown_post_witness :
    (loaded : State ℚ).model = some { rotation := { x := 0, y := 0, z := 0 } } ∧
    (centreBox (loaded : State ℚ).camera (pointerNDC 800 600 400 300)
      { rotation := { x := 0, y := 0, z := 0 } } true).length > 0 ∧
    mousedown centreBox 400 300 (loaded : State ℚ) = (dragging, []) := by
  have hit : (centreBox (loaded : State ℚ).camera (pointerNDC 800 600 400 300)
      { rotation := { x := 0, y := 0, z := 0 } } true).length > 0 := by
    norm_num [centreBox, pointerNDC]
  exact ⟨rfl, hit,
    (mousedown_post (355 / 113 : ℚ) centreBox (loaded : State ℚ) 400 300).1 _ rfl hit⟩

theorem step_idle {α : Type} [LinearOrderedField α] (PI : α) (io : Raycast α)
    (e : Event α) (s : State α) (he : s.isInteracting = false)
    (hd : isHitDown io s e = false) :
    (step PI io e s).1.isInteracting = false ∧ rotationRequests (step PI io e s).2 = [] := by
  cases e with
  | mousedown x y =>
    have h : isPointerOnModel io x y s = false := hd
    simp [step, mousedown, h, he, rotationRequests]
  | mousemove x y =>
    simp [step, mousemove, handleRotation_idle PI x y s he, he, rotationRequests]
  | mouseup => simp [step, mouseup, rotationRequests]
  | touchstart touches =>
    cases touches with
    | nil => simp [step, touchstart, he, rotationRequests]
    | cons t ts =>
      have h : isPointerOnModel io t.x t.y s = false := hd
      simp [step, touchstart, h, he, rotationRequests]
  | touchmove touches => simp [step, touchmove, he, rotationRequests]
  | touchend => simp [step, touchend, rotationRequests]
  | resize w h => simp [step, resize, he, rotationRequests]
  | modelLoaded scene => simp [step, onModelLoaded, he, rotationRequests]
  | modelError => simp [step, onModelError, he, rotationRequests]
  | gsapRender x y =>
    have h : (gsapRender x y s).isInteracting = false := by
      unfold gsapRender
      cases s.model <;> simp [he]
    simp [step, h, rotationRequests]

theorem step_quiet {α : Type} [LinearOrderedField α] (PI : α) (io : Raycast α)
    (e : Event α) (s : State α) (he : s.isInteracting = false)
    (hq : isMoveOrMissedDown io s e = true) :
    step PI io e s = (s, []) := by
  cases e with
  | mousedown x y =>
    have h : isPointerOnModel io x y s = false := by
      simpa [isMoveOrMissedDown] using hq
    simp [step, mousedown, h]
  | mousemove x y => simp [step, mousemove, handleRotation_idle PI x y s he]
  | touchstart touches =>
    cases touches with
    | nil => simp [isMoveOrMissedDown] at hq
    | cons t ts =>
      have h : isPointerOnModel io t.x t.y s = false := by
        simpa [isMoveOrMissedDown] using hq
      simp [step, touchstart, h]
  | touchmove touches => simp [step, touchmove, he]
  | mouseup => simp [isMoveOrMissedDown] at hq
  | touchend => simp [isMoveOrMissedDown] at hq
  | resize w h => simp [isMoveOrMissedDown] at hq
  | modelLoaded scene => simp [isMoveOrMissedDown] at hq
  | modelError => simp [isMoveOrMissedDown] at hq
  | gsapRender x y => simp [isMoveOrMissedDown] at hq

theorem run_quiet {α : Type} [LinearOrderedField α] (PI : α) (io : Raycast α)
    (es : List (Event α)) (s : State α) (he : s.isInteracting = false)
    (hq : ∀ e ∈ es, isMoveOrMissedDown io s e = true) :
    run PI io es s = (s, []) := by
  induction es with
  | nil => rfl
  | cons e es ih =>
    have h1 := step_quiet PI io e s he (hq e (List.mem_cons_self e es))
    have h2 := ih (fun e2 h => hq e2 (List.mem_cons_of_mem e h))
    simp [run, h1, h2]

theorem run_request_after_hit {α : Type} [LinearOrderedField α] (PI : α) (io : Raycast α)
    (es : List (Event α)) :
    ∀ s : State α, s.isInteracting = false → rotationRequests (run PI io es s).2 ≠ [] →
      ∃ pre e post, es = pre ++ e :: post ∧
        isHitDown io (run PI io pre s).1 e = true ∧
        rotationRequests (run PI io pre s).2 = [] := by
  induction es with
  | nil =>
    intro s _ h
    exact absurd rfl h
  | cons e es ih =>
    intro s he h
    by_cases hd : isHitDown io s e = true
    · exact ⟨[], e, es, rfl, hd, rfl⟩
    · have hd2 : isHitDown io s e = false := by simpa using hd
      obtain ⟨h1, h2⟩ := step_idle PI io e s he hd2
      have h3 : rotationRequests (run PI io es (step PI io e s).1).2 ≠ [] := by
        intro h0
        apply h
        simp [run, rotationRequests_append, h2, h0]
      obtain ⟨pre, e2, post, hes, hhit, hnone⟩ := ih _ h1 h3
      refine ⟨e :: pre, e2, post, by simp [hes], ?_, ?_⟩
      · simpa [run] using hhit
      · simp [run, rotationRequests_append, h2, hnone]

theorem scenario_hit {α : Type} [LinearOrderedField α] :
    isPointerOnModel centreBox 400 300 (loaded : State α) = true := by
  norm_num [isPointerOnModel, centreBox, pointerNDC, loaded, initScene]

theorem scenario_down {α : Type} [LinearOrderedField α] :
    mousedown centreBox 400 300 (loaded : State α) = (dragging, []) := by
  rw [mousedown, if_pos scenario_hit]
  rfl

/-- The scenario of the spec: engaging at `(400, 300)`, moving to `(450, 280)`
and releasing issues one rotation request and ends released at `(450, 280)`. -/
theorem scenario_run {α : Type} [LinearOrderedField α] (PI : α) :
    run PI centreBox
      [Event.mousedown 400 300, Event.mousemove 450 280, Event.mouseup] (loaded : State α) =
    ({ (dragging : State α) with
        isInteracting := false, lastPointerPosition := { x := 450, y := 280 } },
      [Effect.gsapTo
        { x := gsap.utils.clamp (-PI / 4) (PI / 4) (0 - (280 - 300) * 0.01)
          y := 0 + (450 - 400) * 0.01
          duration := 0.2
          ease := "power2.out" }]) := by
  simp only [run, step, scenario_down, mousemove,
    handleRotation_engaged PI 450 280 dragging _ rfl rfl, mouseup]
  rfl

/-- C5: from a state that is not engaged, every finite sequence of moves and of
pointer-downs whose hit test misses leaves the whole state unchanged (so the
model's rotation and `lastPointerPosition` are unchanged and `isInteracting`
stays false) and causes no effect, hence no rotation request; and in any
sequence of events that does issue a rotation request, a pointer-down whose
hit test succeeds occurs, with no request issued before it. -/
theorem idle_until_hit {α : Type} [LinearOrderedField α] (PI : α) (io : Raycast α)
    (s : State α) (es : List (Event α)) (he : s.isInteracting = false) :
    ((∀ e ∈ es, isMoveOrMissedDown io s e = true) → run PI io es s = (s, [])) ∧
    (rotationRequests (run PI io es s).2 ≠ [] →
      ∃ pre e post, es = pre ++ e :: post ∧
        isHitDown io (run PI io pre s).1 e = true ∧
        rotationRequests (run PI io pre s).2 = []) :=
  ⟨run_quiet PI io es s he, run_request_after_hit PI io es s he⟩

theorem idle_until_hit_witness :
    (run (355 / 113 : ℚ) centreBox
      [Event.mousedown 400 300, Event.mousemove 450 280, Event.mouseup] loaded).1.isInteracting
        = false ∧
    run (355 / 113 : ℚ) centreBox [Event.mousemove 500 500]
      (run (355 / 113 : ℚ) centreBox
        [Event.mousedown 400 300, Event.mousemove 450 280, Event.mouseup] loaded).1 =
      ((run (355 / 113 : ℚ) centreBox
        [Event.mousedown 400 300, Event.mousemove 450 280, Event.mouseup] loaded).1, []) :=
  ⟨rfl,
    (idle_until_hit (355 / 113 : ℚ) centreBox _ [Event.mousemove 500 500] rfl).1
      (by simp [isMoveOrMissedDown])⟩

/-! ## The model never loads -/

theorem step_unloaded {α : Type} [LinearOrderedField α] (PI : α) (io : Raycast α)
    (e : Event α) (s : State α) (hm : s.model = none) (hl : isModelLoaded e = false) :
    (step PI io e s).1.model = none ∧ isHitDown io s e = false := by
  cases e with
  | mousedown x y =>
    have h := isPointerOnModel_unloaded io x y s hm
    simp [step, mousedown, isHitDown, h, hm]
  | mousemove x y =>
    simp [step, mousemove, handleRotation_unloaded PI x y s hm, hm, isHitDown]
  | mouseup => simp [step, mouseup, hm, isHitDown]
  | touchstart touches =>
    cases touches with
    | nil => simp [step, touchstart, hm, isHitDown]
    | cons t ts =>
      have h := isPointerOnModel_unloaded io t.x t.y s hm
      simp [step, touchstart, isHitDown, h, hm]
  | touchmove touches =>
    cases touches with
    | nil => cases hi : s.isInteracting <;> simp [step, touchmove, hm, isHitDown, hi]
    | cons t ts =>
      cases hi : s.isInteracting <;>
        simp [step, touchmove, handleRotation_unloaded PI t.x t.y s hm, hm, isHitDown, hi]
  | touchend => simp [step, touchend, hm, isHitDown]
  | resize w h => simp [step, resize, hm, isHitDown]
  | modelLoaded scene => simp [isModelLoaded] at hl
  | modelError => simp [step, onModelError, hm, isHitDown]
  | gsapRender x y => simp [step, gsapRender, hm, isHitDown]

theorem run_unloaded {α : Type} [LinearOrderedField α] (PI : α) (io : Raycast α)
    (es : List (Event α)) :
    ∀ s : State α, s.model = none → s.isInteracting = false →
      (∀ e ∈ es, isModelLoaded e = false) →
      (run PI io es s).1.model = none ∧ (run PI io es s).1.isInteracting = false ∧
        rotationRequests (run PI io es s).2 = [] := by
  induction es with
  | nil =>
    intro s hm he _
    exact ⟨hm, he, rfl⟩
  | cons e es ih =>
    intro s hm he hl
    obtain ⟨h1, h2⟩ := step_unloaded PI io e s hm (hl e (List.mem_cons_self e es))
    obtain ⟨h3, h4⟩ := step_idle PI io e s he h2
    obtain ⟨h5, h6, h7⟩ := ih _ h1 h3 (fun e2 h => hl e2 (List.mem_cons_of_mem e h))
    exact ⟨by simpa [run] using h5, by simpa [run] using h6,
      by simp [run, rotationRequests_append, h4, h7]⟩

theorem step_request {α : Type} [LinearOrderedField α] (PI : α) (io : Raycast α)
    (e : Event α) (t : State α) (h : rotationRequests (step PI io e t).2 ≠ []) :
    t.isInteracting = true ∧ t.model ≠ none := by
  have hr : ∀ x y : α, rotationRequests (handleRotation PI x y t).2 ≠ [] →
      t.isInteracting = true ∧ t.model ≠ none := by
    intro x y h
    cases hi : t.isInteracting with
    | false => rw [handleRotation_idle PI x y t hi] at h; exact absurd rfl h
    | true =>
      refine ⟨rfl, ?_⟩
      intro hm
      rw [handleRotation_unloaded PI x y t hm] at h
      exact absurd rfl h
  cases e with
  | mousedown x y =>
    exfalso; apply h
    cases hp : isPointerOnModel io x y t <;> simp [step, mousedown, hp, rotationRequests]
  | mousemove x y => exact hr x y h
  | mouseup => exact absurd rfl h
  | touchstart touches =>
    exfalso; apply h
    cases touches with
    | nil => simp [step, touchstart, rotationRequests]
    | cons p ps =>
      cases hp : isPointerOnModel io p.x p.y t <;> simp [step, touchstart, hp, rotationRequests]
  | touchmove touches =>
    cases hi : t.isInteracting with
    | false => exfalso; apply h; simp [step, touchmove, hi, rotationRequests]
    | true =>
      cases touches with
      | nil => exfalso; apply h; simp [step, touchmove, hi, rotationRequests]
      | cons p ps =>
        have h2 : rotationRequests (handleRotation PI p.x p.y t).2 ≠ [] := by
          simpa [step, touchmove, hi, rotationRequests] using h
        exact ⟨rfl, (hr p.x p.y h2).2⟩
  | touchend => exact absurd rfl h
  | resize w h2 => exact absurd rfl h
  | modelLoaded scene => exact absurd rfl h
  | modelError => exact absurd rfl h
  | gsapRender x y => exact absurd rfl h

/-- C6: if the model is never loaded, then along every finite sequence of
events other than the successful load, starting from a state with no model and
no drag engaged (such as the initial state), after every prefix of the
sequence the model is still unset, `isInteracting` is false, no rotation
request has been issued and the hit test is false at every point. In every
state, an event issues a rotation request only if `isInteracting` is true and
the model is set. -/
theorem unloaded_is_safe {α : Type} [LinearOrderedField α] (PI : α) (io : Raycast α)
    (s : State α) (es : List (Event α)) (hm : s.model = none)
    (he : s.isInteracting = false) (hl : ∀ e ∈ es, isModelLoaded e = false) :
    (∀ n : Nat,
      (run PI io (es.take n) s).1.model = none ∧
      (run PI io (es.take n) s).1.isInteracting = false ∧
      rotationRequests (run PI io (es.take n) s).2 = [] ∧
      ∀ x y : α, isPointerOnModel io x y (run PI io (es.take n) s).1 = false) ∧
    (∀ (t : State α) (e : Event α), rotationRequests (step PI io e t).2 ≠ [] →
      t.isInteracting = true ∧ t.model ≠ none) := by
  refine ⟨?_, fun t e h => step_request PI io e t h⟩
  intro n
  obtain ⟨h1, h2, h3⟩ := run_unloaded PI io (es.take n) s hm he
    (fun e h => hl e (List.mem_of_mem_take h))
  exact ⟨h1, h2, h3, fun x y => isPointerOnModel_unloaded io x y _ h1⟩

theorem unloaded_is_safe_witness :
    (initScene 800 600 : State ℚ).model = none ∧
    (initScene 800 600 : State ℚ).isInteracting = false ∧
    (∀ e ∈ (failedLoadSession : List (Event ℚ)), isModelLoaded e = false) ∧
    rotationRequests (run (355 / 113 : ℚ) centreBox
      ((failedLoadSession : List (Event ℚ)).take 8) (initScene 800 600)).2 = [] :=
  have hl : ∀ e ∈ (failedLoadSession : List (Event ℚ)), isModelLoaded e = false := by
    intro e h
    simp only [failedLoadSession, List.mem_cons, List.mem_singleton, List.not_mem_nil,
      or_false] at h
    rcases h with h | h | h | h | h | h | h | h <;> rw [h] <;> rfl
  ⟨rfl, rfl, hl,
    ((unloaded_is_safe (355 / 113 : ℚ) centreBox (initScene 800 600) failedLoadSession
      rfl rfl hl).1 8).2.2.1⟩

/-! ## Resize -/

/-- C7: the `resize` listener, run when the viewport has size `(w, h)` with
`h ≠ 0`, sets the camera's aspect ratio to `w / h` (and updates the projection
to it) and the renderer's and the composer's size to `(w, h)`; it leaves
`isInteracting`, `lastPointerPosition` and the model unchanged, causes no
effect, and running it a second time with the same size changes nothing. -/
theorem resize_idempotent {α : Type} [LinearOrderedField α] (PI : α) (io : Raycast α)
    (s : State α) (w h : α) (_hh : h ≠ 0) :
    (step PI io (Event.resize w h) s).1.camera = { aspect := w / h, projectionAspect := w / h } ∧
    (step PI io (Event.resize w h) s).1.rendererSize = (w, h) ∧
    (step PI io (Event.resize w h) s).1.composerSize = (w, h) ∧
    (step PI io (Event.resize w h) s).1.isInteracting = s.isInteracting ∧
    (step PI io (Event.resize w h) s).1.lastPointerPosition = s.lastPointerPosition ∧
    (step PI io (Event.resize w h) s).1.model = s.model ∧
    (step PI io (Event.resize w h) s).2 = [] ∧
    step PI io (Event.resize w h) (step PI io (Event.resize w h) s).1 =
      step PI io (Event.resize w h) s ∧
    resize (step PI io (Event.resize w h) s).1 = step PI io (Event.resize w h) s :=
  ⟨rfl, rfl, rfl, rfl, rfl, rfl, rfl, rfl, rfl⟩

theorem resize_idempotent_witness :
    (600 : ℚ) ≠ 0 ∧
    (step (355 / 113 : ℚ) centreBox (Event.resize 800 600) dragging).1.camera =
      { aspect := 800 / 600, projectionAspect := 800 / 600 } :=
  ⟨by norm_num,
    (resize_idempotent (355 / 113 : ℚ) centreBox dragging 800 600 (by norm_num)).1⟩

/-! ## Touch and mouse -/

/-- C8: for every state and every first touch point `(x, y)`, `touchstart`
acts exactly as `mousedown` at `(x, y)` and `touchend` exactly as `mouseup`;
`touchmove` yields the same next state and the same rotation requests as
`mousemove` at `(x, y)`, its effects being those of `mousemove` preceded by
`preventDefault` when `isInteracting` is true and those of `mousemove`
otherwise, so that it suppresses the default exactly when engaged. -/
theorem touch_eq_mouse {α : Type} [LinearOrderedField α] (PI : α) (io : Raycast α)
    (s : State α) (x y : α) (rest : List (Vector2 α)) :
    touchstart io ({ x := x, y := y } :: rest) s = mousedown io x y s ∧
    touchend s = mouseup s ∧
    (touchmove PI ({ x := x, y := y } :: rest) s).1 = (mousemove PI x y s).1 ∧
    rotationRequests (touchmove PI ({ x := x, y := y } :: rest) s).2 =
      rotationRequests (mousemove PI x y s).2 ∧
    (touchmove PI ({ x := x, y := y } :: rest) s).2 =
      (if s.isInteracting then Effect.preventDefault :: (mousemove PI x y s).2
        else (mousemove PI x y s).2) ∧
    (Effect.preventDefault ∈ (touchmove PI ({ x := x, y := y } :: rest) s).2 ↔
      s.isInteracting = true) := by
  cases hi : s.isInteracting with
  | false =>
    have h := handleRotation_idle PI x y s hi
    simp [touchstart, mousedown, touchend, mouseup, touchmove, mousemove, hi, h]
  | true =>
    simp [touchstart, mousedown, touchend, mouseup, touchmove, mousemove, hi,
      rotationRequests]

/-! ## Hit test -/

/-- C9: with the model loaded, `isPointerOnModel` at `(x, y)` is true exactly
when the ray caster, called recursively for the pointer
`((x / innerWidth) * 2 - 1, -(y / innerHeight) * 2 + 1)`, reports at least one
intersection. For a viewport of positive width `w` and height `h`, that mapping
sends the centre to `(0, 0)` (so `(400, 300)` in 800 by 600), the corner
`(0, 0)` to `(-1, 1)`, and every point `(px, py)` of the viewport into the
square from `-1` to `1`. -/
theorem isPointerOnModel_iff {α : Type} [LinearOrderedField α] (io : Raycast α)
    (s : State α) (m : Object3D α) (x y w h px py : α) (hm : s.model = some m)
    (hw : 0 < w) (hh : 0 < h) (hx0 : 0 ≤ px) (hx1 : px ≤ w) (hy0 : 0 ≤ py) (hy1 : py ≤ h) :
    (isPointerOnModel io x y s = true ↔
      1 ≤ (io s.camera
        { x := (x / s.innerWidth) * 2 - 1, y := -(y / s.innerHeight) * 2 + 1 } m true).length) ∧
    pointerNDC w h (w / 2) (h / 2) = { x := 0, y := 0 } ∧
    pointerNDC (800 : α) 600 400 300 = { x := 0, y := 0 } ∧
    pointerNDC w h 0 0 = { x := -1, y := 1 } ∧
    -1 ≤ (pointerNDC w h px py).x ∧ (pointerNDC w h px py).x ≤ 1 ∧
    -1 ≤ (pointerNDC w h px py).y ∧ (pointerNDC w h px py).y ≤ 1 := by
  have hw0 : w ≠ 0 := ne_of_gt hw
  have hh0 : h ≠ 0 := ne_of_gt hh
  have hxw0 : 0 ≤ px / w := div_nonneg hx0 hw.le
  have hxw1 : px / w ≤ 1 := (div_le_one hw).mpr hx1
  have hyh0 : 0 ≤ py / h := div_nonneg hy0 hh.le
  have hyh1 : py / h ≤ 1 := (div_le_one hh).mpr hy1
  refine ⟨?_, ?_, ?_, ?_, ?_, ?_, ?_, ?_⟩
  · rw [isPointerOnModel_loaded io x y s m hm]
    simp [pointerNDC, Nat.succ_le_iff]
  · have e1 : w / 2 / w = 1 / 2 := by field_simp; ring
    have e2 : h / 2 / h = 1 / 2 := by field_simp; ring
    simp only [pointerNDC, e1, e2]
    norm_num
  · norm_num [pointerNDC]
  · simp [pointerNDC]
  · show -1 ≤ px / w * 2 - 1
    linarith
  · show px / w * 2 - 1 ≤ 1
    linarith
  · show -1 ≤ -(py / h) * 2 + 1
    linarith
  · show -(py / h) * 2 + 1 ≤ 1
    linarith

theorem isPointerOnModel_iff_witness :
    (loaded : State ℚ).model = some { rotation := { x := 0, y := 0, z := 0 } } ∧
    (0 : ℚ) < 800 ∧ (0 : ℚ) < 600 ∧ (0 : ℚ) ≤ 200 ∧ (200 : ℚ) ≤ 800 ∧
    (0 : ℚ) ≤ 450 ∧ (450 : ℚ) ≤ 600 ∧
    pointerNDC (800 : ℚ) 600 (800 / 2) (600 / 2) = { x := 0, y := 0 } ∧
    -1 ≤ (pointerNDC (800 : ℚ) 600 200 450).y :=
  have h := isPointerOnModel_iff centreBox (loaded : State ℚ)
    { rotation := { x := 0, y := 0, z := 0 } } 400 300 800 600 200 450 rfl
    (by norm_num) (by norm_num) (by norm_num) (by norm_num) (by norm_num) (by norm_num)
  ⟨rfl, by norm_num, by norm_num, by norm_num, by norm_num, by norm_num, by norm_num,
    h.2.1, h.2.2.2.2.2.2.1⟩

/-! ## Drag deltas in double precision -/

theorem F64.log_eq (q : ℚ) (n : ℤ) (h1 : (2 : ℚ) ^ n ≤ |q|) (h2 : |q| < (2 : ℚ) ^ (n + 1)) :
    Int.log 2 |q| = n := by
  have hpos : (0 : ℚ) < |q| := lt_of_lt_of_le (by positivity) h1
  have a : n ≤ Int.log 2 |q| :=
    (Int.zpow_le_iff_le_log (by norm_num) hpos).mp (by exact_mod_cast h1)
  have b : Int.log 2 |q| < n + 1 :=
    (Int.lt_zpow_iff_log_lt (by norm_num) hpos).mp (by exact_mod_cast h2)
  omega

/-- Evaluation of `round64` from the binary exponent `n` of `q` and the floor
`f` of `q` scaled by its unit in the last place. -/
theorem F64.round64_eval (q : ℚ) (n e f : ℤ)
    (h1 : (2 : ℚ) ^ n ≤ |q|) (h2 : |q| < (2 : ℚ) ^ (n + 1))
    (he : e = max n (-1022) - 52)
    (hf1 : (f : ℚ) ≤ q / 2 ^ e) (hf2 : q / 2 ^ e < f + 1) :
    F64.round64 q =
      ((if q / 2 ^ e - f < 1 / 2 then f
        else if 1 / 2 < q / 2 ^ e - f then f + 1
        else if f % 2 = 0 then f else f + 1 : ℤ) : ℚ) * 2 ^ e := by
  have hu : F64.ulpExponent q = e := by rw [F64.ulpExponent, F64.log_eq q n h1 h2, he]
  have hfl : ⌊q / 2 ^ e⌋ = f := Int.floor_eq_iff.mpr ⟨hf1, hf2⟩
  rw [F64.round64, hu, F64.roundHalfEven, hfl]

theorem F64.round64_zero : F64.round64 0 = 0 := by
  simp [F64.round64, F64.roundHalfEven]

/-- The literal `0.01` denotes `5764607523034235 / 2 ^ 59`. -/
theorem F64.round64_cent : F64.round64 0.01 = 5764607523034235 / 2 ^ 59 := by
  rw [F64.round64_eval 0.01 (-7) (-59) 5764607523034234 (by norm_num [abs_of_pos])
    (by norm_num [abs_of_pos]) (by norm_num) (by norm_num) (by norm_num)]
  norm_num

theorem F64.sub_410_400 : F64.sub 410 400 = 10 := by
  rw [F64.sub, F64.round64_eval _ 3 (-49) (10 * 2 ^ 49) (by norm_num [abs_of_pos])
    (by norm_num [abs_of_pos]) (by norm_num) (by norm_num) (by norm_num)]
  norm_num

theorem F64.sub_430_410 : F64.sub 430 410 = 20 := by
  rw [F64.sub, F64.round64_eval _ 4 (-48) (20 * 2 ^ 48) (by norm_num [abs_of_pos])
    (by norm_num [abs_of_pos]) (by norm_num) (by norm_num) (by norm_num)]
  norm_num

theorem F64.sub_430_400 : F64.sub 430 400 = 30 := by
  rw [F64.sub, F64.round64_eval _ 4 (-48) (30 * 2 ^ 48) (by norm_num [abs_of_pos])
    (by norm_num [abs_of_pos]) (by norm_num) (by norm_num) (by norm_num)]
  norm_num

/-- In doubles `10 * 0.01` is the double nearest to `0.1`. -/
theorem F64.mul_10_cent : F64.mul 10 (F64.round64 0.01) = 7205759403792794 / 2 ^ 56 := by
  rw [F64.round64_cent, F64.mul,
    F64.round64_eval _ (-4) (-56) 7205759403792793 (by norm_num [abs_of_pos])
      (by norm_num [abs_of_pos]) (by norm_num) (by norm_num) (by norm_num)]
  norm_num

/-- In doubles `20 * 0.01` is the double nearest to `0.2`. -/
theorem F64.mul_20_cent : F64.mul 20 (F64.round64 0.01) = 7205759403792794 / 2 ^ 55 := by
  rw [F64.round64_cent, F64.mul,
    F64.round64_eval _ (-3) (-55) 7205759403792793 (by norm_num [abs_of_pos])
      (by norm_num [abs_of_pos]) (by norm_num) (by norm_num) (by norm_num)]
  norm_num

/-- In doubles `30 * 0.01` is the double nearest to `0.3`. -/
theorem F64.mul_30_cent : F64.mul 30 (F64.round64 0.01) = 5404319552844595 / 2 ^ 54 := by
  rw [F64.round64_cent, F64.mul,
    F64.round64_eval _ (-2) (-54) 5404319552844595 (by norm_num [abs_of_pos])
      (by norm_num [abs_of_pos]) (by norm_num) (by norm_num) (by norm_num)]
  norm_num

theorem F64.add_zero_tenth :
    F64.add 0 (7205759403792794 / 2 ^ 56) = 7205759403792794 / 2 ^ 56 := by
  rw [F64.add, F64.round64_eval _ (-4) (-56) 7205759403792794 (by norm_num [abs_of_pos])
    (by norm_num [abs_of_pos]) (by norm_num) (by norm_num) (by norm_num)]
  norm_num

theorem F64.add_zero_three_tenths :
    F64.add 0 (5404319552844595 / 2 ^ 54) = 5404319552844595 / 2 ^ 54 := by
  rw [F64.add, F64.round64_eval _ (-2) (-54) 5404319552844595 (by norm_num [abs_of_pos])
    (by norm_num [abs_of_pos]) (by norm_num) (by norm_num) (by norm_num)]
  norm_num

/-- In doubles `0.1 + 0.2` is a tie between two doubles and goes to the even
one, `5404319552844596 / 2 ^ 54`, printed `0.30000000000000004`. -/
theorem F64.add_tenth_fifth :
    F64.add (7205759403792794 / 2 ^ 56) (7205759403792794 / 2 ^ 55) =
      5404319552844596 / 2 ^ 54 := by
  rw [F64.add, F64.round64_eval _ (-2) (-54) 5404319552844595 (by norm_num [abs_of_pos])
    (by norm_num [abs_of_pos]) (by norm_num) (by norm_num) (by norm_num)]
  norm_num

theorem F64.round64_half : F64.round64 (1 / 2) = 1 / 2 := by
  rw [F64.round64_eval _ (-1) (-53) (2 ^ 52) (by norm_num [abs_of_pos])
    (by norm_num [abs_of_pos]) (by norm_num) (by norm_num) (by norm_num)]
  norm_num

theorem F64.round64_one : F64.round64 1 = 1 := by
  rw [F64.round64_eval _ 0 (-52) (2 ^ 52) (by norm_num)
    (by norm_num) (by norm_num) (by norm_num) (by norm_num)]
  norm_num

theorem F64.round64_neg_one : F64.round64 (-1) = -1 := by
  rw [F64.round64_eval _ 0 (-52) (-2 ^ 52) (by norm_num)
    (by norm_num) (by norm_num) (by norm_num) (by norm_num)]
  norm_num

theorem F64.pointerNDC_centre : F64.pointerNDC 800 600 400 300 = { x := 0, y := 0 } := by
  have d1 : F64.div 400 800 = 1 / 2 := by
    rw [F64.div, show (400 : ℚ) / 800 = 1 / 2 by norm_num, F64.round64_half]
  have d2 : F64.div 300 600 = 1 / 2 := by
    rw [F64.div, show (300 : ℚ) / 600 = 1 / 2 by norm_num, F64.round64_half]
  have m1 : F64.mul (1 / 2) 2 = 1 := by
    rw [F64.mul, show (1 : ℚ) / 2 * 2 = 1 by norm_num, F64.round64_one]
  have m2 : F64.mul (-(1 / 2)) 2 = -1 := by
    rw [F64.mul, show -((1 : ℚ) / 2) * 2 = -1 by norm_num, F64.round64_neg_one]
  have s1 : F64.sub 1 1 = 0 := by
    rw [F64.sub, sub_self, F64.round64_zero]
  have a1 : F64.add (-1) 1 = 0 := by
    rw [F64.add, neg_add_cancel, F64.round64_zero]
  rw [F64.pointerNDC, d1, d2, m1, m2, s1, a1]

theorem F64.centre_hit : F64.isPointerOnModel centreBox 400 300 (loaded : State ℚ) = true := by
  have h : F64.pointerNDC (loaded : State ℚ).innerWidth (loaded : State ℚ).innerHeight 400 300
      = { x := 0, y := 0 } := F64.pointerNDC_centre
  have hm : (loaded : State ℚ).model = some { rotation := { x := 0, y := 0, z := 0 } } := rfl
  simp only [F64.isPointerOnModel, hm, h]
  norm_num [centreBox]

theorem F64.centre_down :
    F64.mousedown centreBox 400 300 (loaded : State ℚ) = (dragging, []) := by
  rw [F64.mousedown, if_pos F64.centre_hit]
  rfl

theorem F64.handleRotation_rounded (x y : ℚ) (s : State ℚ) (m : Object3D ℚ)
    (hm : s.model = some m) (he : s.isInteracting = true) :
    F64.handleRotation x y s =
      ({ s with lastPointerPosition := { x := x, y := y } },
        [Effect.gsapTo
          { x := gsap.utils.clamp (F64.div (-F64.PI) 4) (F64.div F64.PI 4)
              (F64.sub m.rotation.x
                (F64.mul (F64.sub y s.lastPointerPosition.y) (F64.round64 0.01)))
            y := F64.add m.rotation.y
              (F64.mul (F64.sub x s.lastPointerPosition.x) (F64.round64 0.01))
            duration := F64.round64 0.2
            ease := "power2.out" }]) := by
  simp [F64.handleRotation, hm, he]

theorem F64.dragSettled_cons (p : Vector2 ℚ) (ps : List (Vector2 ℚ)) (s : State ℚ)
    (m : Object3D ℚ) (hm : s.model = some m) (he : s.isInteracting = true) :
    F64.dragSettled (p :: ps) s =
      ((F64.dragSettled ps
        { s with
          lastPointerPosition := { x := p.x, y := p.y }
          model := some { m with rotation := { m.rotation with
            x := gsap.utils.clamp (F64.div (-F64.PI) 4) (F64.div F64.PI 4)
              (F64.sub m.rotation.x
                (F64.mul (F64.sub p.y s.lastPointerPosition.y) (F64.round64 0.01)))
            y := F64.add m.rotation.y
              (F64.mul (F64.sub p.x s.lastPointerPosition.x) (F64.round64 0.01)) } } }).1,
        { x := gsap.utils.clamp (F64.div (-F64.PI) 4) (F64.div F64.PI 4)
            (F64.sub m.rotation.x
              (F64.mul (F64.sub p.y s.lastPointerPosition.y) (F64.round64 0.01)))
          y := F64.add m.rotation.y
            (F64.mul (F64.sub p.x s.lastPointerPosition.x) (F64.round64 0.01))
          duration := F64.round64 0.2
          ease := "power2.out" } ::
        (F64.dragSettled ps
        { s with
          lastPointerPosition := { x := p.x, y := p.y }
          model := some { m with rotation := { m.rotation with
            x := gsap.utils.clamp (F64.div (-F64.PI) 4) (F64.div F64.PI 4)
              (F64.sub m.rotation.x
                (F64.mul (F64.sub p.y s.lastPointerPosition.y) (F64.round64 0.01)))
            y := F64.add m.rotation.y
              (F64.mul (F64.sub p.x s.lastPointerPosition.x) (F64.round64 0.01)) } } }).2) := by
  simp [F64.dragSettled, F64.mousemove, F64.handleRotation_rounded p.x p.y s m hm he,
    rotationRequests, gsapRender, hm]

theorem F64.dragSettled_yaw (ps : List (Vector2 ℚ)) :
    ∀ (p : Vector2 ℚ) (s : State ℚ) (m : Object3D ℚ),
      s.model = some m → s.isInteracting = true →
      (F64.dragSettled (p :: ps) s).2.getLast?.map TweenVars.y =
        some (F64.accumulatedYaw m.rotation.y s.lastPointerPosition.x (p :: ps)) ∧
      (F64.dragSettled (p :: ps) s).2.length = (p :: ps).length ∧
      (F64.dragSettled (p :: ps) s).1.lastPointerPosition =
        (p :: ps).getLast (List.cons_ne_nil p ps) := by
  induction ps with
  | nil =>
    intro p s m hm he
    rw [F64.dragSettled_cons p [] s m hm he]
    simp [F64.dragSettled, F64.accumulatedYaw]
  | cons q qs ih =>
    intro p s m hm he
    rw [F64.dragSettled_cons p (q :: qs) s m hm he]
    obtain ⟨h1, h2, h3⟩ := ih q
      { s with
        lastPointerPosition := { x := p.x, y := p.y }
        model := some { m with rotation := { m.rotation with
          x := gsap.utils.clamp (F64.div (-F64.PI) 4) (F64.div F64.PI 4)
            (F64.sub m.rotation.x
              (F64.mul (F64.sub p.y s.lastPointerPosition.y) (F64.round64 0.01)))
          y := F64.add m.rotation.y
            (F64.mul (F64.sub p.x s.lastPointerPosition.x) (F64.round64 0.01)) } } }
      _ rfl he
    refine ⟨?_, ?_, ?_⟩
    · generalize (F64.dragSettled (q :: qs) _).2 = l at h1 h2 ⊢
      cases l with
      | nil => simp at h2
      | cons v vs =>
        rw [List.getLast?_cons_cons, h1]
        rfl
    · simp only [List.length_cons] at h2 ⊢
      rw [h2]
    · rw [List.getLast_cons (List.cons_ne_nil q qs)]
      exact h3

theorem F64.accumulatedYaw_two_moves :
    F64.accumulatedYaw 0 400 [{ x := 410, y := 300 }, { x := 430, y := 300 }] =
      5404319552844596 / 2 ^ 54 := by
  simp only [F64.accumulatedYaw, F64.sub_410_400, F64.mul_10_cent, F64.add_zero_tenth,
    F64.sub_430_410, F64.mul_20_cent, F64.add_tenth_fifth]

theorem F64.accumulatedYaw_one_move :
    F64.accumulatedYaw 0 400 [{ x := 430, y := 300 }] = 5404319552844595 / 2 ^ 54 := by
  simp only [F64.accumulatedYaw, F64.sub_430_400, F64.mul_30_cent, F64.add_zero_three_tenths]

/-- C10, as stated, fails in the code's double arithmetic: after the
pointer-down at `(400, 300)` on the model at yaw `0`, the moves to `(410, 300)`
and then `(430, 300)`, each transition completed, end with target yaw
`5404319552844596 / 2 ^ 54` (printed `0.30000000000000004`), whereas the single
move to `(430, 300)` ends with `5404319552844595 / 2 ^ 54` (printed `0.3`),
which is also what `0 + (430 - 400) * 0.01` evaluates to; the two differ, and
the first is not the exact value `3/10` either. -/
theorem F64.drag_depends_on_intermediate_positions :
    (loaded : State ℚ).model = some { rotation := { x := 0, y := 0, z := 0 } } ∧
    F64.isPointerOnModel centreBox 400 300 (loaded : State ℚ) = true ∧
    (F64.dragSettled [{ x := 410, y := 300 }, { x := 430, y := 300 }]
      (F64.mousedown centreBox 400 300 loaded).1).2.getLast?.map TweenVars.y =
        some (5404319552844596 / 2 ^ 54) ∧
    (F64.dragSettled [{ x := 430, y := 300 }]
      (F64.mousedown centreBox 400 300 loaded).1).2.getLast?.map TweenVars.y =
        some (5404319552844595 / 2 ^ 54) ∧
    F64.add 0 (F64.mul (F64.sub 430 400) (F64.round64 0.01)) = 5404319552844595 / 2 ^ 54 ∧
    (5404319552844596 / 2 ^ 54 : ℚ) ≠ 5404319552844595 / 2 ^ 54 ∧
    (5404319552844596 / 2 ^ 54 : ℚ) ≠ 0 + (430 - 400) * 0.01 := by
  refine ⟨rfl, F64.centre_hit, ?_, ?_, ?_, by norm_num, by norm_num⟩
  · rw [F64.centre_down]
    have h := (F64.dragSettled_yaw [{ x := 430, y := 300 }] { x := 410, y := 300 }
      dragging { rotation := { x := 0, y := 0, z := 0 } } rfl rfl).1
    rw [h]
    exact congrArg some F64.accumulatedYaw_two_moves
  · rw [F64.centre_down]
    have h := (F64.dragSettled_yaw [] { x := 430, y := 300 }
      dragging { rotation := { x := 0, y := 0, z := 0 } } rfl rfl).1
    rw [h]
    exact congrArg some F64.accumulatedYaw_one_move
  · rw [F64.sub_430_400, F64.mul_30_cent, F64.add_zero_three_tenths]

/-- C10, amended: in the code's double arithmetic every engaged move with the
model loaded sets `lastPointerPosition` to the move's point and requests as
target yaw the model's current yaw plus `(x - lastPointerPosition.x) * 0.01`,
each operation rounded. Hence, after a successful pointer-down at `(x0, y0)`
with yaw `r0`, along one or more moves each of whose transitions has completed
before the next move, one request is issued per move, `lastPointerPosition`
ends at the last point, and the last requested target yaw is the sum
accumulated move by move from `r0` and `x0` (`accumulatedYaw`), which for a
single move is `r0 + (x1 - x0) * 0.01` as the code evaluates it. If the
animation utility has brought the yaw to `vy` between two moves, the second
request is `vy + (x2 - x1) * 0.01`: the target is computed from the model's
current rotation, not from the previous target. -/
theorem F64.drag_accumulates (io : Raycast ℚ) (s0 : State ℚ) (m : Object3D ℚ)
    (x0 y0 : ℚ) (p : Vector2 ℚ) (ps : List (Vector2 ℚ))
    (hm : s0.model = some m) (hit : F64.isPointerOnModel io x0 y0 s0 = true) :
    (∀ (s : State ℚ) (m2 : Object3D ℚ) (x y : ℚ),
      s.model = some m2 → s.isInteracting = true →
      (F64.mousemove x y s).1.lastPointerPosition = { x := x, y := y } ∧
      (rotationRequests (F64.mousemove x y s).2).map TweenVars.y =
        [F64.add m2.rotation.y
          (F64.mul (F64.sub x s.lastPointerPosition.x) (F64.round64 0.01))]) ∧
    (F64.dragSettled (p :: ps) (F64.mousedown io x0 y0 s0).1).2.getLast?.map TweenVars.y =
      some (F64.accumulatedYaw m.rotation.y x0 (p :: ps)) ∧
    (F64.dragSettled (p :: ps) (F64.mousedown io x0 y0 s0).1).2.length = (p :: ps).length ∧
    (F64.dragSettled (p :: ps) (F64.mousedown io x0 y0 s0).1).1.lastPointerPosition =
      (p :: ps).getLast (List.cons_ne_nil p ps) ∧
    (F64.dragSettled [p] (F64.mousedown io x0 y0 s0).1).2.map TweenVars.y =
      [F64.add m.rotation.y (F64.mul (F64.sub p.x x0) (F64.round64 0.01))] ∧
    (∀ x1 y1 vx vy x2 y2 : ℚ,
      (rotationRequests (F64.mousemove x2 y2
        (gsapRender vx vy (F64.mousemove x1 y1 (F64.mousedown io x0 y0 s0).1).1)).2).map
          TweenVars.y =
        [F64.add vy (F64.mul (F64.sub x2 x1) (F64.round64 0.01))]) := by
  have hd : F64.mousedown io x0 y0 s0 =
      ({ s0 with isInteracting := true, lastPointerPosition := { x := x0, y := y0 } }, []) := by
    simp [F64.mousedown, hit]
  have hy := F64.dragSettled_yaw ps p
    { s0 with isInteracting := true, lastPointerPosition := { x := x0, y := y0 } } m hm rfl
  refine ⟨?_, ?_, ?_, ?_, ?_, ?_⟩
  · intro s m2 x y hs he
    simp [F64.mousemove, F64.handleRotation_rounded x y s m2 hs he, rotationRequests]
  · rw [hd]
    exact hy.1
  · rw [hd]
    exact hy.2.1
  · rw [hd]
    exact hy.2.2
  · rw [hd, F64.dragSettled_cons p []
      { s0 with isInteracting := true, lastPointerPosition := { x := x0, y := y0 } } m hm rfl]
    simp [F64.dragSettled]
  · intro x1 y1 vx vy x2 y2
    rw [hd]
    simp only [F64.mousemove]
    rw [F64.handleRotation_rounded x1 y1
      { s0 with isInteracting := true, lastPointerPosition := { x := x0, y := y0 } }
      m hm rfl]
    rw [F64.handleRotation_rounded x2 y2 _
      { m with rotation := { m.rotation with x := vx, y := vy } }
      (by simp [gsapRender, hm]) (by simp [gsapRender, hm])]
    simp [rotationRequests, gsapRender, hm]

theorem F64.drag_accumulates_witness :
    (loaded : State ℚ).model = some { rotation := { x := 0, y := 0, z := 0 } } ∧
    F64.isPointerOnModel centreBox 400 300 (loaded : State ℚ) = true ∧
    (F64.dragSettled [{ x := 450, y := 280 }, { x := 380, y := 310 }, { x := 500, y := 300 }]
      (F64.mousedown centreBox 400 300 loaded).1).2.getLast?.map TweenVars.y =
      some (F64.accumulatedYaw 0 400
        [{ x := 450, y := 280 }, { x := 380, y := 310 }, { x := 500, y := 300 }]) :=
  ⟨rfl, F64.centre_hit,
    (F64.drag_accumulates centreBox loaded { rotation := { x := 0, y := 0, z := 0 } }
      400 300 { x := 450, y := 280 } [{ x := 380, y := 310 }, { x := 500, y := 300 }]
      rfl F64.centre_hit).2.1⟩

end Main
